import Mathlib

/-!
Verification of the test-case execution engine of `hwsuite` (`src/hwsuite/check.py`).

The Python source is shallowly embedded: pure string manipulation is translated
to Lean functions over `String`/`List Char`; Python exceptions are modelled by
`Except PyError`; interaction with the operating system (the `screen` session,
the subject process, the valgrind run, the file system) is modelled by explicit
behaviour parameters that record what the environment would have answered at
each observation point (poll results, command exit codes, captured log text).
Python `str` slicing and indexing is character-based, so it is mirrored with
`List Char` operations on `String.data`.
-/

set_option maxRecDepth 4096

deriving instance DecidableEq for Except

namespace Hwsuite

/-- A raised Python exception, reduced to its class name and message
(`type(e).__name__` and `str(e)` as used by `ConcurrencyManager.perform`). -/
structure PyError where
  kind : String
  msg : String
deriving DecidableEq, Repr

/-- Embeds `TestCase` (check.py line 70): one fixture. `env` is modelled as an
association list standing for the frozenset of key/value pairs. -/
structure TestCase where
  input_file : Option String
  expected_file : Option String
  env : Option (List (String × String))
  args : List String
  exit_code : Int
deriving DecidableEq, Repr

/-- Embeds `TestCase.check_exit_code` (line 93): `exit_code == self.exit_code`. -/
def TestCase.check_exit_code (tc : TestCase) (exit_code : Int) : Bool :=
  exit_code == tc.exit_code

/-- Embeds `TestCaseOutcome` (line 174). `expected_text` and `actual_text` are
`Option String` because the Python fields receive `None` on some paths. -/
structure TestCaseOutcome where
  passed : Bool
  executable : String
  test_case : TestCase
  expected_text : Option String
  actual_text : Option String
  message : String
deriving DecidableEq, Repr

/-- Python `s.endswith(t)` (character-based). -/
def py_endswith (s t : String) : Bool :=
  t.data.isSuffixOf s.data

/-- Python `s.startswith(t)` (character-based). -/
def py_startswith (s t : String) : Bool :=
  t.data.isPrefixOf s.data

/-- Python `ch in s` for a single character `ch`. -/
def py_contains_char (s : String) (ch : Char) : Bool :=
  s.data.contains ch

/-- Python `s[:n]` for `0 ≤ n` (character-based slice). -/
def py_take (s : String) (n : Nat) : String :=
  ⟨s.data.take n⟩

/-- Python `s[n:]` for `0 ≤ n` (character-based slice). -/
def py_drop (s : String) (n : Nat) : String :=
  ⟨s.data.drop n⟩

/-- Python `len(s)` (character-based). -/
def py_len (s : String) : Nat :=
  s.data.length

/-- Embeds `TestCaseFilenameSet` (line 116). -/
structure TestCaseFilenameSet where
  identifier : String
  expected : String
  input : String
  env : String
  args : String
deriving DecidableEq, Repr

/-- Python `os.path.splitext(p)[0]` for a basename with no directory
separators: split at the last dot unless every character before that dot is
itself a dot (so `".txt"` has no extension). -/
def splitext_root (s : String) : String :=
  match (s.data.reverse.findIdx? (· = '.')) with
  | none => s
  | some ridx =>
    let i := s.data.length - 1 - ridx
    if (s.data.take i).all (· = '.') then s else ⟨s.data.take i⟩

/-- Embeds `_derive_counterparts` (line 125), taking the basename of the
expected-output file. The second pattern test mirrors the source exactly:
`basename.endswith("-expected-output.txt", True)` passes `True` as the *start*
argument of `str.endswith`, i.e. it tests `basename[1:]`. -/
def derive_counterparts (basename : String) : Except String TestCaseFilenameSet :=
  if basename = "expected.txt" then
    .ok ⟨"", basename, "input.txt", "env.txt", "args.txt"⟩
  else if py_endswith basename "-expected.txt" then
    let identifier := py_take basename (py_len basename - py_len "-expected.txt")
    .ok ⟨identifier, basename, identifier ++ "-input.txt", identifier ++ "-env.txt",
         identifier ++ "-args.txt"⟩
  else if py_endswith (py_drop basename 1) "-expected-output.txt" then
    let identifier := py_take basename (py_len basename - py_len "-expected-output.txt")
    .ok ⟨identifier, basename, identifier ++ "-input.txt", identifier ++ "-env.txt",
         identifier ++ "-args.txt"⟩
  else if py_startswith basename "expected-" then
    let identifier := py_drop basename (py_len "expected-")
    .ok ⟨splitext_root identifier, basename, "input-" ++ identifier, "env-" ++ identifier,
         "args-" ++ identifier⟩
  else
    .error "basename pattern not recognized; should be something like *-input.txt or *-expected.txt"

/-- Embeds `_STUFF_MODES` (line 35). -/
def STUFF_MODES : List String := ["auto", "strict"]

/-- Embeds the key set of `_STUFF_SPECIALS` (line 41). -/
def STUFF_SPECIALS_KEYS : List Char := ['^', '#', '$']

/-- Embeds the `_STUFF_SPECIALS` dict (line 41): `some none` means the key is
present with value `None` (octal escape applies), `some (some e)` means a
special escape `e`. Python `'\$'` is the two-character string backslash-dollar. -/
def STUFF_SPECIALS (ch : Char) : Option (Option String) :=
  if ch = '^' then some none
  else if ch = '#' then some none
  else if ch = '$' then some (some "\\$")
  else none

/-- Embeds `StuffConfig.has_special_chars` (line 273): some special key occurs
in the line. -/
def has_special_chars (line : String) : Bool :=
  STUFF_SPECIALS_KEYS.any (fun ch => py_contains_char line ch)

/-- The per-character replacement of the loop body of
`StuffConfig.translate_special_chars` (lines 283-290): a special character is
replaced by its special escape, or by `"\\" + oct(ord(ch))[2:]` when the dict
value is `None`; other characters are kept. -/
def stuff_escape (ch : Char) : String :=
  if STUFF_SPECIALS_KEYS.contains ch then
    match STUFF_SPECIALS ch with
    | some (some esc) => esc
    | _ => "\\" ++ ⟨Nat.toDigits 8 ch.toNat⟩
  else String.singleton ch

/-- Embeds `StuffConfig.translate_special_chars` (line 280): unchanged when no
special character occurs, otherwise the concatenation of the per-character
replacements (`''.join(chars)`). -/
def translate_special_chars (line : String) : String :=
  if !(has_special_chars line) then line
  else line.data.foldr (fun ch acc => stuff_escape ch ++ acc) ""

/-- Embeds `StuffConfig` (line 255). -/
structure StuffConfig where
  mode : String
  eof : Bool
deriving DecidableEq, Repr

/-- Embeds `StuffConfig.format_line` (line 260). Python control flow:
raise `ValueError` for an unrecognized mode; in `strict` mode raise
`StuffContentException` when the line has a special character (the interpolated
`repr` details of the Python message are abbreviated to the line itself);
in `auto` mode escape the specials and append a newline unless the last
character (`line[-1]`, raising `IndexError` on an empty string) is already a
newline; a `strict`-mode line without special characters is returned unchanged. -/
def StuffConfig.format_line (cfg : StuffConfig) (line : String) : Except PyError String :=
  if !(STUFF_MODES.contains cfg.mode) then
    .error ⟨"ValueError", "unrecognized stuff mode"⟩
  else if cfg.mode == "strict" && has_special_chars line then
    .error ⟨"StuffContentException",
      "input line contains characters that may not be compatible with screen stuff command: " ++ line⟩
  else if cfg.mode == "auto" then
    let line' := translate_special_chars line
    match line'.data.getLast? with
    | none => .error ⟨"IndexError", "string index out of range"⟩
    | some c => if c != '\n' then .ok (line' ++ "\n") else .ok line'
  else
    .ok line

/-- Python `str.expandtabs(tabsize)` with `tabsize > 0`, over a character list:
a tab becomes `tabsize - col % tabsize` spaces, newline and carriage return
reset the column, other characters advance it. -/
def expandtabs_aux (tabsize : Nat) : List Char → Nat → List Char
  | [], _ => []
  | c :: rest, col =>
    if c = '\t' then
      let n := tabsize - col % tabsize
      List.replicate n ' ' ++ expandtabs_aux tabsize rest (col + n)
    else if c = '\n' ∨ c = '\r' then
      c :: expandtabs_aux tabsize rest 0
    else
      c :: expandtabs_aux tabsize rest (col + 1)

/-- Python `s.expandtabs(tabsize)`. -/
def expandtabs (tabsize : Nat) (s : String) : String :=
  ⟨expandtabs_aux tabsize s.data 0⟩

/-- Embeds `Result` (line 497): exit code plus optional text. -/
structure Result where
  exit_code : Int
  text : Option String
deriving DecidableEq, Repr

/-- The four arguments `(passed, expected_text, actual_text, message)` that
`TestCaseRunner._check` passes to its `to_outcome` callback. -/
structure CheckVerdict where
  passed : Bool
  expected_text : Option String
  actual_text : Option String
  message : String
deriving DecidableEq, Repr

/-- Embeds `TestCaseRunner._transform_expected` (line 522): the original
expected text first, then, when the expected text contains a tab, its
8-column tab expansion as an extra candidate. The actual text is unused by
the source body. -/
def TestCaseRunner.transform_expected (expected_text : String) (_actual_text : Option String) :
    List String :=
  let texts := [expected_text]
  if py_contains_char expected_text '\t' then texts ++ [expandtabs 8 expected_text] else texts

/-- Embeds `TestCaseRunner._transform_actual` (line 538): the captured text is
returned unchanged as the only candidate. -/
def TestCaseRunner.transform_actual (_expected_text : String) (actual_text : Option String) :
    List (Option String) :=
  [actual_text]

/-- Embeds `TestCaseRunner._compare_texts` (line 547): Python `==`, where
comparing a `str` with `None` is `False` (hence the `Option` on the actual
side). -/
def TestCaseRunner.compare_texts (expected : String) (actual : Option String) : Bool :=
  some expected == actual

/-- Embeds `TestCaseRunner._check` (line 550). With no expected text the
verdict is decided by exit codes alone (message `"exit_code"` on mismatch);
otherwise the nested candidate loops look for an exact match, returning the
original texts with `"ok"` on success and the last candidates with `"diff"`
when every comparison fails. -/
def TestCaseRunner.check' (expected actual : Result) : CheckVerdict :=
  match expected.text with
  | none =>
    let passed := expected.exit_code == actual.exit_code
    ⟨passed, none, actual.text, if passed then "ok" else "exit_code"⟩
  | some expected_text =>
    let expected_texts := TestCaseRunner.transform_expected expected_text actual.text
    let actual_texts := TestCaseRunner.transform_actual expected_text actual.text
    if expected_texts.any (fun e => actual_texts.any (fun a => TestCaseRunner.compare_texts e a)) then
      ⟨true, some expected_text, actual.text, "ok"⟩
    else
      ⟨false, expected_texts.getLast?, actual_texts.getLast?.join, "diff"⟩

/-- Embeds `ValgrindConfig` (line 429). -/
structure ValgrindConfig where
  valgrind_executable : String
  options : List String
  applicability : String
  verbosity : String
deriving DecidableEq, Repr

/-- Embeds `ValgrindConfig.is_applicable` (line 436): `always` / `never` /
`auto` (= the fixture has no input file); any other value raises `ValueError`. -/
def ValgrindConfig.is_applicable (cfg : ValgrindConfig) (test_case : TestCase) :
    Except String Bool :=
  if cfg.applicability = "always" then .ok true
  else if cfg.applicability = "never" then .ok false
  else if cfg.applicability = "auto" then .ok test_case.input_file.isNone
  else .error "applicability is not recognized in this config object"

/-- What the environment reports when `ScreenRunnable.stuff` is attempted for
one input line: either the poll (`finished(force_check=True)`) observes that
the subject process has already exited, or the `screen -X stuff` command runs
and returns exit code `rc`. -/
inductive FeedEvent where
  | exited
  | stuffed (rc : Int)
deriving DecidableEq, Repr

/-- The observable result of one `ScreenRunnable.stuff` call (line 344):
`early` models the `EarlyTerminationException` raised when the pre-feed poll
sees the process finished; `formatError` models an exception raised by
`format_line` *before* the transmission command runs; `transmitted` means the
`screen -X stuff` command was actually executed with the formatted line and
returned `rc` (and `num_stuffs` was incremented). -/
inductive StuffStep where
  | early
  | formatError (e : PyError)
  | transmitted (formatted : String) (rc : Int)
deriving DecidableEq, Repr

/-- Embeds `ScreenRunnable.stuff` (line 344): the early-termination poll comes
first, then `cfg.format_line(line)`, and only then the transmission command. -/
def ScreenRunnable.stuff (cfg : StuffConfig) (line : String) (ev : FeedEvent) : StuffStep :=
  match ev with
  | .exited => .early
  | .stuffed rc =>
    match cfg.format_line line with
    | .error e => .formatError e
    | .ok formatted => .transmitted formatted rc

/-- Result of the feed loop of `TestCaseRunner.run_test_case` (lines 611-621),
carrying `num_stuffs`, the number of transmission commands executed. -/
inductive FeedLoopResult where
  | completed (num_stuffs : Nat)
  | early (num_stuffs : Nat)
  | stuffFail (num_stuffs : Nat)
  | raised (e : PyError) (num_stuffs : Nat)
deriving DecidableEq, Repr

/-- Embeds the feed loop of `run_test_case` (lines 611-621): for each input
line, `stuff` is attempted (the event oracle `evs i` tells what the `i`-th
attempt observes); `EarlyTerminationException` returns the `"early"` outcome,
a nonzero stuff exit code returns the `"stuff"` outcome, any other exception
propagates, and otherwise the loop continues. -/
def feed_lines (cfg : StuffConfig) (evs : Nat → FeedEvent) :
    List String → Nat → Nat → FeedLoopResult
  | [], _, count => .completed count
  | line :: rest, i, count =>
    match ScreenRunnable.stuff cfg line (evs i) with
    | .early => .early count
    | .formatError e => .raised e count
    | .transmitted _ rc =>
      if rc != 0 then .stuffFail (count + 1) else feed_lines cfg evs rest (i + 1) (count + 1)

/-- The environment's behaviour for one terminal-session run:
`eof_finished` is what `finished(force_check=True)` observes at `stuff_eof`
time; `await_exit` is the subject's exit code if `await_proc` reaps it within
the processing timeout (line 333), else `none`; `quit_poll_exit` is the exit
code if the extra poll inside `quit` (line 388) reaps it, else `none`;
`log` is the content of `screenlog.0`, or `none` if the file is missing. -/
structure ScreenBehavior where
  eof_finished : Bool
  await_exit : Option Int
  quit_poll_exit : Option Int
  log : Option String
deriving DecidableEq, Repr

/-- The environment's behaviour for one direct (no-screen) invocation
(lines 634-652): the subject's exit code and captured stdout, and the exit
code the valgrind re-invocation would return if it were run. -/
structure DirectBehavior where
  exit_code : Int
  stdout : String
  valgrind_exit : Int
deriving DecidableEq, Repr

/-- The `make_outcome` closure of `run_test_case` (line 589). -/
def make_outcome (executable : String) (test_case : TestCase) (passed : Bool)
    (expected_text actual_text : Option String) (message : String) : TestCaseOutcome :=
  ⟨passed, executable, test_case, expected_text, actual_text, message⟩

/-- The `check` closure of `run_test_case` (line 592) composed with
`make_outcome`: builds the outcome from a `_check` verdict. -/
def outcome_of (executable : String) (test_case : TestCase) (v : CheckVerdict) :
    TestCaseOutcome :=
  make_outcome executable test_case v.passed v.expected_text v.actual_text v.message

/-- Embeds `TestCaseRunner._is_use_screen` (line 570): `never` / `always`,
otherwise (`auto`) a screen session is used exactly when the fixture has an
input file. -/
def is_use_screen (require_screen : String) (test_case : TestCase) : Bool :=
  if require_screen = "never" then false
  else if require_screen = "always" then true
  else test_case.input_file.isSome

/-- Run-time policy knobs of `TestCaseRunner` (line 506) used by the engine. -/
structure RunnerConfig where
  require_screen : String
  stuff : StuffConfig
  valgrind : ValgrindConfig
deriving DecidableEq, Repr

/-- Embeds the terminal-session branch of `run_test_case` (lines 603-632).
The feed loop may return an `"early"` or `"stuff"` outcome (each reading the
log with failures ignored) or let an exception escape. After a completed
loop, `stuff_eof` raises `ScreenStateException` when configured to send EOF
to an already-finished process; then the epilogue runs: the log is read with
`ignore_failure=False` (an absent log raises), and the
`assert screener.completed_proc` on line 631 raises `AssertionError` when
neither `await_proc` nor the poll inside `quit` ever reaped an exit code.
Otherwise the `_check` comparison decides the outcome. The second component
is the session's `num_stuffs` count. -/
def run_screen (executable : String) (test_case : TestCase) (cfg : StuffConfig)
    (expected_text : Option String) (input_lines : List String)
    (evs : Nat → FeedEvent) (beh : ScreenBehavior) :
    Except PyError TestCaseOutcome × Nat :=
  match feed_lines cfg evs input_lines 0 0 with
  | .early n => (.ok (make_outcome executable test_case false expected_text beh.log "early"), n)
  | .stuffFail n => (.ok (make_outcome executable test_case false expected_text beh.log "stuff"), n)
  | .raised e n => (.error e, n)
  | .completed n =>
    if cfg.eof && beh.eof_finished then
      (.error ⟨"ScreenStateException", "screen runnable state does not permit stuff_eof"⟩, n)
    else
      match beh.log with
      | none => (.error ⟨"FileNotFoundError", "screenlog.0 does not exist"⟩, n)
      | some output =>
        match (match beh.await_exit with
               | some code => some code
               | none => beh.quit_poll_exit) with
        | none => (.error ⟨"AssertionError", "completed process not assigned to screen runner"⟩, n)
        | some exit_code =>
          (.ok (outcome_of executable test_case
            (TestCaseRunner.check' ⟨test_case.exit_code, expected_text⟩ ⟨exit_code, some output⟩)), n)

/-- Embeds the direct-invocation branch of `run_test_case` (lines 634-653):
run the subject synchronously; if the exit code matches the fixture's and the
valgrind policy applies, re-invoke under valgrind and fail with `"memcheck"`
on a nonzero checker exit; a mismatched exit code fails immediately with
message `"unexpected exit code <code>"`; otherwise the `_check` comparison
decides. The second component records whether valgrind was invoked. -/
def run_direct (executable : String) (test_case : TestCase) (vcfg : ValgrindConfig)
    (expected_text : Option String) (beh : DirectBehavior) :
    Except PyError TestCaseOutcome × Bool :=
  let exit_code := beh.exit_code
  let output := beh.stdout
  if test_case.check_exit_code exit_code then
    match vcfg.is_applicable test_case with
    | .error m => (.error ⟨"ValueError", m⟩, false)
    | .ok true =>
      if beh.valgrind_exit != 0 then
        (.ok (make_outcome executable test_case false expected_text (some output) "memcheck"), true)
      else
        (.ok (outcome_of executable test_case
          (TestCaseRunner.check' ⟨test_case.exit_code, expected_text⟩ ⟨exit_code, some output⟩)), true)
    | .ok false =>
      (.ok (outcome_of executable test_case
        (TestCaseRunner.check' ⟨test_case.exit_code, expected_text⟩ ⟨exit_code, some output⟩)), false)
  else
    (.ok (make_outcome executable test_case false expected_text (some output)
      ("unexpected exit code " ++ toString exit_code)), false)

/-- The observable record of one `TestCaseRunner.run_test_case` call:
its result (an outcome, or the exception it raises), the number of `stuff`
transmissions, and whether the valgrind re-invocation happened. -/
structure RunRecord where
  result : Except PyError TestCaseOutcome
  num_stuffs : Nat
  valgrind_invoked : Bool
deriving DecidableEq, Repr

/-- Embeds `TestCaseRunner.run_test_case` (line 578): dispatch on
`_is_use_screen` to the terminal-session branch or the direct branch.
`expected_text` stands for the text read from `test_case.expected_file`
(`none` iff there is no expected file) and `input_lines` for the lines read
from `test_case.input_file` (empty when there is none), mirroring lines
584-600. -/
def TestCaseRunner.run_test_case (executable : String) (cfg : RunnerConfig)
    (test_case : TestCase) (expected_text : Option String) (input_lines : List String)
    (evs : Nat → FeedEvent) (beh : ScreenBehavior) (dbeh : DirectBehavior) : RunRecord :=
  if is_use_screen cfg.require_screen test_case then
    let r := run_screen executable test_case cfg.stuff expected_text input_lines evs beh
    ⟨r.1, r.2, false⟩
  else
    let r := run_direct executable test_case cfg.valgrind expected_text dbeh
    ⟨r.1, 0, r.2⟩

/-- The shared outcome dictionary of `CppChecker.check_cpp`, modelled as a
finite map from test cases. -/
def OutcomeMap := TestCase → Option TestCaseOutcome

/-- Embeds `ConcurrencyManager.perform` (line 679). `run_result` is what
`self._run_test_case(test_case)` did: produced an outcome, or raised the
exception `e`. The `except Exception` handler converts any raised exception
into a synthetic failing outcome with executable `"<unknown>"`, empty texts
and message `"unhandled: <kind> <message>"`; in either case the outcome is
stored in the dictionary under the test case (the function always returns an
updated map: nothing propagates past this boundary). -/
def ConcurrencyManager.perform (test_case : TestCase)
    (run_result : Except PyError TestCaseOutcome) (outcomes : OutcomeMap) : OutcomeMap :=
  let outcome :=
    match run_result with
    | .ok o => o
    | .error e =>
      ⟨false, "<unknown>", test_case, some "", some "", "unhandled: " ++ e.kind ++ " " ++ e.msg⟩
  fun k => if k = test_case then some outcome else outcomes k

/-- Number of consecutive `'\n'` characters at the end of a string (used to
state what "exactly one trailing newline" means). -/
def trailing_newlines (s : String) : Nat :=
  (s.data.reverse.takeWhile (· = '\n')).length

/-- Concatenating strings concatenates their character lists. -/
theorem string_data_append (a b : String) : (a ++ b).data = a.data ++ b.data := rfl

/-- A nonempty string has a nonempty character list. -/
theorem data_ne_nil_of_ne_empty (s : String) (h : s ≠ "") : s.data ≠ [] := by
  cases s with
  | mk data =>
    intro hd
    have hdd : data = [] := hd
    subst hdd
    exact h rfl

/-- Every per-character replacement produced by the escape loop is nonempty. -/
theorem stuff_escape_data_ne_nil (ch : Char) : (stuff_escape ch).data ≠ [] := by
  by_cases h1 : ch = '^'
  · subst h1; decide
  by_cases h2 : ch = '#'
  · subst h2; decide
  by_cases h3 : ch = '$'
  · subst h3; decide
  have hc : STUFF_SPECIALS_KEYS.contains ch = false := by
    simp [STUFF_SPECIALS_KEYS, h1, h2, h3]
  unfold stuff_escape
  rw [hc]
  simp [String.singleton]

/-- Escaping special characters never empties a nonempty line. -/
theorem translate_data_ne_nil (line : String) (h : line.data ≠ []) :
    (translate_special_chars line).data ≠ [] := by
  unfold translate_special_chars
  by_cases hs : has_special_chars line
  · rw [hs]
    obtain ⟨c, cs, hdata⟩ := List.exists_cons_of_ne_nil h
    rw [hdata]
    simp only [List.foldr_cons, Bool.not_true, Bool.false_eq_true, if_false,
      string_data_append]
    intro hnil
    exact stuff_escape_data_ne_nil c (List.append_eq_nil.mp hnil).1
  · have hs' : has_special_chars line = false := by
      revert hs
      cases has_special_chars line <;> simp
    rw [hs']
    simpa using h

/-- Characterization of `format_line` in `auto` mode on a nonempty line:
it succeeds, the result ends with a newline, a line whose escaped form already
ends in a newline is passed through unchanged, and otherwise exactly one
newline is appended to the escaped form. -/
theorem format_line_auto_spec (eofb : Bool) (line : String) (h : line ≠ "") :
    ∃ out, StuffConfig.format_line ⟨"auto", eofb⟩ line = .ok out ∧
      out.data.getLast? = some '\n' ∧
      ((translate_special_chars line).data.getLast? = some '\n' →
        out = translate_special_chars line) ∧
      (∀ c, (translate_special_chars line).data.getLast? = some c → c ≠ '\n' →
        out = translate_special_chars line ++ "\n") := by
  have hdata : (translate_special_chars line).data ≠ [] :=
    translate_data_ne_nil line (data_ne_nil_of_ne_empty line h)
  have hred : StuffConfig.format_line ⟨"auto", eofb⟩ line =
      (match (translate_special_chars line).data.getLast? with
       | none => .error ⟨"IndexError", "string index out of range"⟩
       | some c =>
         if c != '\n' then .ok (translate_special_chars line ++ "\n")
         else .ok (translate_special_chars line)) := rfl
  have hc : (translate_special_chars line).data.getLast? =
      some ((translate_special_chars line).data.getLast hdata) :=
    List.getLast?_eq_getLast _ hdata
  set c := (translate_special_chars line).data.getLast hdata with hcdef
  by_cases hnl : c = '\n'
  · refine ⟨translate_special_chars line, ?_, ?_, fun _ => rfl, ?_⟩
    · rw [hred, hc, hnl]
      simp
    · rw [hc, hnl]
    · intro c' hc' hne'
      rw [hc] at hc'
      exact absurd (hnl ▸ (Option.some_injective _ hc').symm) hne'
  · refine ⟨translate_special_chars line ++ "\n", ?_, ?_, ?_, fun _ _ _ => rfl⟩
    · rw [hred, hc]
      simp [hnl]
    · rw [string_data_append]
      show ((translate_special_chars line).data ++ ['\n']).getLast? = some '\n'
      exact List.getLast?_concat _
    · intro habs
      rw [hc] at habs
      exact absurd (Option.some_injective _ habs) hnl

/-- If the first `k` feed attempts transmit successfully and the `k`-th poll
observes the terminated process, the feed loop stops with the early-termination
result after exactly `k` transmissions. -/
theorem feed_lines_early_of (cfg : StuffConfig) (evs : Nat → FeedEvent) :
    ∀ (lines : List String) (k start count : Nat) (hk : k < lines.length),
      evs (start + k) = FeedEvent.exited →
      (∀ j (hj : j < k), evs (start + j) = FeedEvent.stuffed 0 ∧
        ∃ s, cfg.format_line (lines.get ⟨j, lt_trans hj hk⟩) = .ok s) →
      feed_lines cfg evs lines start count = .early (count + k) := by
  intro lines
  induction lines with
  | nil =>
    intro k start count hk
    exact absurd hk (by simp)
  | cons line rest ih =>
    intro k start count hk hexit hpre
    cases k with
    | zero =>
      have h0 : evs start = FeedEvent.exited := by simpa using hexit
      simp [feed_lines, ScreenRunnable.stuff, h0]
    | succ k' =>
      obtain ⟨hev0, s, hs⟩ := hpre 0 (Nat.succ_pos k')
      have hev0' : evs start = FeedEvent.stuffed 0 := by simpa using hev0
      have hs' : cfg.format_line line = .ok s := hs
      have hk' : k' < rest.length := Nat.lt_of_succ_lt_succ hk
      have hexit' : evs ((start + 1) + k') = FeedEvent.exited := by
        rw [Nat.add_assoc, Nat.add_comm 1 k']
        exact hexit
      have hpre' : ∀ j (hj : j < k'), evs ((start + 1) + j) = FeedEvent.stuffed 0 ∧
          ∃ s', cfg.format_line (rest.get ⟨j, lt_trans hj hk'⟩) = .ok s' := by
        intro j hj
        obtain ⟨he, s', hs''⟩ := hpre (j + 1) (Nat.succ_lt_succ hj)
        refine ⟨?_, s', hs''⟩
        rw [Nat.add_assoc, Nat.add_comm 1 j]
        exact he
      have := ih k' (start + 1) (count + 1) hk' hexit' hpre'
      simp only [feed_lines, ScreenRunnable.stuff, hev0', hs']
      rw [if_neg (by simp)]
      rw [this]
      congr 1
      omega

/-- Claim C2: every exception raised while running a test case is caught at
the scheduling boundary (`ConcurrencyManager.perform` returns a map instead of
propagating), converted into a failing outcome whose message is
`"unhandled: <exception kind> <exception message>"`, and recorded in the
results map under that test case. -/
theorem c2_unhandled_exception_recorded (test_case : TestCase) (e : PyError)
    (outcomes : OutcomeMap) :
    ConcurrencyManager.perform test_case (.error e) outcomes test_case =
      some ⟨false, "<unknown>", test_case, some "", some "",
        "unhandled: " ++ e.kind ++ " " ++ e.msg⟩ := by
  simp [ConcurrencyManager.perform]

/-- Claim C3: when the expected text contains a tab, an actual text equal to
the 8-column tab expansion of the expected text is classified `"ok"` (and
passes); moreover the comparator always tries the raw expected text as the
first candidate, and the actual captured text is never transformed (it is the
sole candidate on the actual side). -/
theorem c3_tab_expansion_ok (ec ac : Int) (expected : String)
    (htab : py_contains_char expected '\t' = true) :
    (TestCaseRunner.check' ⟨ec, some expected⟩ ⟨ac, some (expandtabs 8 expected)⟩).message
        = "ok" ∧
    (TestCaseRunner.check' ⟨ec, some expected⟩ ⟨ac, some (expandtabs 8 expected)⟩).passed
        = true ∧
    (∀ e a, (TestCaseRunner.transform_expected e a).head? = some e) ∧
    (∀ e a, TestCaseRunner.transform_actual e a = [a]) := by
  have hok : TestCaseRunner.check' ⟨ec, some expected⟩ ⟨ac, some (expandtabs 8 expected)⟩ =
      ⟨true, some expected, some (expandtabs 8 expected), "ok"⟩ := by
    simp [TestCaseRunner.check', TestCaseRunner.transform_expected,
      TestCaseRunner.transform_actual, TestCaseRunner.compare_texts, htab]
  refine ⟨by rw [hok], by rw [hok], ?_, fun e a => rfl⟩
  intro e a
  by_cases h : py_contains_char e '\t' <;>
    simp [TestCaseRunner.transform_expected, h]

/-- Claim C9 (code bug): for the deprecated basename form
`expected-output<id>.txt`, the code derives the sibling basenames by the
generic prefix rule `input- + identifier`, producing `input-output1.txt`,
`env-output1.txt`, `args-output1.txt` for `expected-output1.txt` — not the
`input1.txt`, `env1.txt`, `args1.txt` that the spec's table (and the
repository's own `test__derive_counterparts`) prescribe. -/
theorem c9_deprecated_pattern_derivation :
    derive_counterparts "expected-output1.txt" =
      .ok ⟨"output1", "expected-output1.txt", "input-output1.txt", "env-output1.txt",
        "args-output1.txt"⟩ ∧
    ("input-output1.txt" : String) ≠ "input1.txt" ∧
    ("env-output1.txt" : String) ≠ "env1.txt" ∧
    ("args-output1.txt" : String) ≠ "args1.txt" := by
  exact ⟨rfl, by decide, by decide, by decide⟩

/-- Claim C10: in `auto` mode, `format_line` unconditionally indexes the last
character of the (escaped) line, so the empty string raises `IndexError`,
while every non-empty line is returned newline-terminated. -/
theorem c10_auto_mode_empty_line (eofb : Bool) :
    StuffConfig.format_line ⟨"auto", eofb⟩ "" =
      .error ⟨"IndexError", "string index out of range"⟩ ∧
    (∀ line : String, line ≠ "" →
      ∃ out, StuffConfig.format_line ⟨"auto", eofb⟩ line = .ok out ∧
        out.data.getLast? = some '\n') := by
  constructor
  · rfl
  · intro line h
    obtain ⟨out, h1, h2, -, -⟩ := format_line_auto_spec eofb line h
    exact ⟨out, h1, h2⟩

/-- Witness for C3: the expected text `"a\tb"` contains a tab; its 8-column
expansion `"a       b"` as actual text is classified `"ok"`. -/
theorem c3_tab_expansion_ok_witness :
    expandtabs 8 "a\tb" = "a       b" ∧
    py_contains_char "a\tb" '\t' = true ∧
    ((TestCaseRunner.check' ⟨0, some "a\tb"⟩ ⟨0, some (expandtabs 8 "a\tb")⟩).message = "ok" ∧
     (TestCaseRunner.check' ⟨0, some "a\tb"⟩ ⟨0, some (expandtabs 8 "a\tb")⟩).passed = true ∧
     (∀ e a, (TestCaseRunner.transform_expected e a).head? = some e) ∧
     (∀ e a, TestCaseRunner.transform_actual e a = [a])) :=
  ⟨rfl, rfl, c3_tab_expansion_ok 0 0 "a\tb" rfl⟩

/-- Claim C4: when the pre-feed poll observes that the subject process exited
at the `k`-th input line with `k` lines still unfed (`k < input_lines.length`),
the produced outcome is the failing `"early"` classification and exactly `k`
transmissions were made — no feed attempt happens after the detection. -/
theorem c4_early_termination (executable : String) (cfg : RunnerConfig) (test_case : TestCase)
    (expected_text : Option String) (input_lines : List String) (evs : Nat → FeedEvent)
    (beh : ScreenBehavior) (dbeh : DirectBehavior) (k : Nat)
    (hscreen : is_use_screen cfg.require_screen test_case = true)
    (hk : k < input_lines.length)
    (hexit : evs k = FeedEvent.exited)
    (hpre : ∀ j (hj : j < k), evs j = FeedEvent.stuffed 0 ∧
      ∃ s, cfg.stuff.format_line (input_lines.get ⟨j, lt_trans hj hk⟩) = .ok s) :
    TestCaseRunner.run_test_case executable cfg test_case expected_text input_lines evs beh dbeh
      = ⟨.ok (make_outcome executable test_case false expected_text beh.log "early"), k, false⟩ := by
  have hfeed : feed_lines cfg.stuff evs input_lines 0 0 = .early (0 + k) := by
    apply feed_lines_early_of cfg.stuff evs input_lines k 0 0 hk
    · simpa using hexit
    · intro j hj
      simpa using hpre j hj
  rw [Nat.zero_add] at hfeed
  simp [TestCaseRunner.run_test_case, hscreen, run_screen, hfeed]

/-- Witness for C4: two input lines, the first feed succeeds, the poll before
the second feed observes the exited process; the outcome is `"early"` with
exactly one transmission. -/
theorem c4_early_termination_witness :
    TestCaseRunner.run_test_case "exe"
      ⟨"auto", ⟨"auto", false⟩, ⟨"valgrind", [], "auto", "normal"⟩⟩
      ⟨some "input.txt", some "expected.txt", none, [], 0⟩ (some "hello") ["a\n", "b\n"]
      (fun n => if n = 0 then FeedEvent.stuffed 0 else FeedEvent.exited)
      ⟨false, some 1, none, some "partial"⟩ ⟨0, "", 0⟩
      = ⟨.ok (make_outcome "exe" ⟨some "input.txt", some "expected.txt", none, [], 0⟩
          false (some "hello") (some "partial") "early"), 1, false⟩ := by
  apply c4_early_termination "exe"
    ⟨"auto", ⟨"auto", false⟩, ⟨"valgrind", [], "auto", "normal"⟩⟩
    ⟨some "input.txt", some "expected.txt", none, [], 0⟩ (some "hello") ["a\n", "b\n"]
    (fun n => if n = 0 then FeedEvent.stuffed 0 else FeedEvent.exited)
    ⟨false, some 1, none, some "partial"⟩ ⟨0, "", 0⟩ 1 rfl (by decide) rfl
  intro j hj
  interval_cases j
  exact ⟨rfl, "a\n", rfl⟩

/-- Claim C5: in `strict` mode, a line containing a forbidden special
character makes `format_line` raise the content-rejected condition
(`StuffContentException`), so a `stuff` attempt stops at `formatError` —
before any transmission command — and `strict`-mode formatting never mutates
any line it accepts. -/
theorem c5_strict_content_rejected (eofb : Bool) (line : String) (rc : Int)
    (h : has_special_chars line = true) :
    (∃ e : PyError, StuffConfig.format_line ⟨"strict", eofb⟩ line = .error e ∧
      e.kind = "StuffContentException" ∧
      ScreenRunnable.stuff ⟨"strict", eofb⟩ line (FeedEvent.stuffed rc) = .formatError e) ∧
    (∀ l out, StuffConfig.format_line ⟨"strict", eofb⟩ l = .ok out → out = l) := by
  constructor
  · refine ⟨⟨"StuffContentException",
      "input line contains characters that may not be compatible with screen stuff command: "
        ++ line⟩, ?_, rfl, ?_⟩
    · simp [StuffConfig.format_line, STUFF_MODES, h]
    · simp only [ScreenRunnable.stuff]
      rw [show StuffConfig.format_line ⟨"strict", eofb⟩ line = .error ⟨"StuffContentException",
        "input line contains characters that may not be compatible with screen stuff command: "
          ++ line⟩ from by simp [StuffConfig.format_line, STUFF_MODES, h]]
  · intro l out hok
    by_cases hl : has_special_chars l
    · simp [StuffConfig.format_line, STUFF_MODES, hl] at hok
    · have hl' : has_special_chars l = false := by
        revert hl
        cases has_special_chars l <;> simp
      simp [StuffConfig.format_line, STUFF_MODES, hl'] at hok
      exact hok.symm

/-- Witness for C5: the line `"$"` contains a forbidden character; strict-mode
formatting rejects it before transmission. -/
theorem c5_strict_content_rejected_witness :
    has_special_chars "$" = true ∧
    ((∃ e : PyError, StuffConfig.format_line ⟨"strict", false⟩ "$" = .error e ∧
      e.kind = "StuffContentException" ∧
      ScreenRunnable.stuff ⟨"strict", false⟩ "$" (FeedEvent.stuffed 0) = .formatError e) ∧
     (∀ l out, StuffConfig.format_line ⟨"strict", false⟩ l = .ok out → out = l)) :=
  ⟨rfl, c5_strict_content_rejected false "$" 0 rfl⟩

/-- Witness for C10: on the concrete non-empty line `"a"`, auto-mode
formatting succeeds and yields the newline-terminated `"a\n"`. -/
theorem c10_auto_mode_empty_line_witness :
    StuffConfig.format_line ⟨"auto", false⟩ "a" = .ok "a\n" ∧
    (∃ out, StuffConfig.format_line ⟨"auto", false⟩ "a" = .ok out ∧
      out.data.getLast? = some '\n') :=
  ⟨rfl, (c10_auto_mode_empty_line false).2 "a" (by decide)⟩

/-- Counterexample to claim C1: in the terminal-session path, a run whose
actual exit code (1) differs from the fixture's expected exit code (0) is
*not* failed with a bad-exit-code classification: the expected file is
present, so `_check` compares only the texts, and the matching log text makes
the case pass with message `"ok"`. -/
theorem c1_counterexample :
    TestCaseRunner.run_test_case "exe"
      ⟨"auto", ⟨"auto", false⟩, ⟨"valgrind", [], "auto", "normal"⟩⟩
      ⟨some "input.txt", some "expected.txt", none, [], 0⟩ (some "hello") ["x\n"]
      (fun _ => FeedEvent.stuffed 0) ⟨false, some 1, none, some "hello"⟩ ⟨0, "", 0⟩
      = ⟨.ok ⟨true, "exe", ⟨some "input.txt", some "expected.txt", none, [], 0⟩,
          some "hello", some "hello", "ok"⟩, 1, false⟩ ∧
    TestCase.check_exit_code ⟨some "input.txt", some "expected.txt", none, [], 0⟩ 1 = false :=
  ⟨rfl, rfl⟩

/-- Claim C1 as amended: only the direct-invocation path fails immediately on
an exit-code mismatch — with message `"unexpected exit code <code>"` and no
output comparison (and no memory check). In the terminal-session path the
exit code is compared only when the fixture has no expected text (message
`"exit_code"` on mismatch); when an expected text is present the `_check`
comparison ignores the exit codes entirely. -/
theorem c1_amended :
    (∀ (executable : String) (test_case : TestCase) (vcfg : ValgrindConfig)
        (expected_text : Option String) (dbeh : DirectBehavior),
      TestCase.check_exit_code test_case dbeh.exit_code = false →
      run_direct executable test_case vcfg expected_text dbeh =
        (.ok (make_outcome executable test_case false expected_text (some dbeh.stdout)
          ("unexpected exit code " ++ toString dbeh.exit_code)), false)) ∧
    (∀ (ec ec' ac ac' : Int) (et : String) (t : Option String),
      TestCaseRunner.check' ⟨ec, some et⟩ ⟨ac, t⟩ =
        TestCaseRunner.check' ⟨ec', some et⟩ ⟨ac', t⟩) ∧
    (∀ (ec ac : Int) (t : Option String),
      TestCaseRunner.check' ⟨ec, none⟩ ⟨ac, t⟩ =
        ⟨ec == ac, none, t, if ec == ac then "ok" else "exit_code"⟩) := by
  refine ⟨?_, fun ec ec' ac ac' et t => rfl, fun ec ac t => rfl⟩
  intro executable test_case vcfg expected_text dbeh h
  simp [run_direct, h]

/-- Witness for C1 (amended): a direct invocation exiting 3 against an
expected exit code 0 fails immediately with message
`"unexpected exit code 3"`. -/
theorem c1_amended_witness :
    TestCase.check_exit_code ⟨none, some "e.txt", none, [], 0⟩ 3 = false ∧
    run_direct "exe" ⟨none, some "e.txt", none, [], 0⟩ ⟨"valgrind", [], "auto", "normal"⟩
      (some "x") ⟨3, "out", 0⟩ =
      (.ok (make_outcome "exe" ⟨none, some "e.txt", none, [], 0⟩ false (some "x") (some "out")
        ("unexpected exit code " ++ toString (3 : Int))), false) :=
  ⟨rfl, c1_amended.1 "exe" ⟨none, some "e.txt", none, [], 0⟩ ⟨"valgrind", [], "auto", "normal"⟩
    (some "x") ⟨3, "out", 0⟩ rfl⟩

/-- Counterexample to claim C6: the line `"a\n\n"` already ends in a newline,
so auto-mode formatting passes it through unchanged — and the result ends with
*two* trailing newlines, not exactly one. -/
theorem c6_counterexample :
    StuffConfig.format_line ⟨"auto", false⟩ "a\n\n" = .ok "a\n\n" ∧
    trailing_newlines "a\n\n" = 2 :=
  ⟨rfl, rfl⟩

/-- Claim C6 as amended: for every *non-empty* input line, auto-mode
formatting succeeds and yields a line ending in a newline; exactly one newline
is appended when the escaped line does not already end with one, and a line
already ending in a newline is passed through unchanged (so pre-existing extra
trailing newlines are preserved). -/
theorem c6_amended (eofb : Bool) (line : String) (h : line ≠ "") :
    ∃ out, StuffConfig.format_line ⟨"auto", eofb⟩ line = .ok out ∧
      out.data.getLast? = some '\n' ∧
      ((translate_special_chars line).data.getLast? = some '\n' →
        out = translate_special_chars line) ∧
      (∀ c, (translate_special_chars line).data.getLast? = some c → c ≠ '\n' →
        out = translate_special_chars line ++ "\n") :=
  format_line_auto_spec eofb line h

/-- Witness for C6 (amended): the line `"a"` does not end in a newline and
formats to the newline-terminated `"a\n"`. -/
theorem c6_amended_witness :
    StuffConfig.format_line ⟨"auto", false⟩ "a" = .ok "a\n" ∧
    (∃ out, StuffConfig.format_line ⟨"auto", false⟩ "a" = .ok out ∧
      out.data.getLast? = some '\n' ∧
      ((translate_special_chars "a").data.getLast? = some '\n' →
        out = translate_special_chars "a") ∧
      (∀ c, (translate_special_chars "a").data.getLast? = some c → c ≠ '\n' →
        out = translate_special_chars "a" ++ "\n")) :=
  ⟨rfl, c6_amended false "a" (by decide)⟩

/-- Counterexample to claim C7: a terminal-session run whose subject process
is never reaped (neither `await_proc` nor the poll inside `quit` obtains an
exit code) does not complete the case: even though the log file exists, the
runner raises `AssertionError` at the `assert screener.completed_proc`
epilogue instead of producing an outcome. -/
theorem c7_counterexample :
    TestCaseRunner.run_test_case "exe"
      ⟨"always", ⟨"auto", false⟩, ⟨"valgrind", [], "auto", "normal"⟩⟩
      ⟨none, none, none, [], 0⟩ none [] (fun _ => FeedEvent.stuffed 0)
      ⟨false, none, none, some "out"⟩ ⟨0, "", 0⟩
      = ⟨.error ⟨"AssertionError", "completed process not assigned to screen runner"⟩,
          0, false⟩ :=
  rfl

/-- Claim C7 as amended: when the subject does not terminate within the
processing timeout (`await_proc` reaps nothing) but an exit code becomes
available at session teardown (the poll inside `quit`), the runner still
completes the case, reading the existing log and producing the `_check`
outcome for that exit code. (When no exit code ever becomes available the
runner instead raises, as the counterexample shows.) -/
theorem c7_amended (executable : String) (cfg : RunnerConfig) (test_case : TestCase)
    (expected_text : Option String) (input_lines : List String) (evs : Nat → FeedEvent)
    (beh : ScreenBehavior) (dbeh : DirectBehavior) (n : Nat) (code : Int) (output : String)
    (hscreen : is_use_screen cfg.require_screen test_case = true)
    (hfeed : feed_lines cfg.stuff evs input_lines 0 0 = .completed n)
    (heof : cfg.stuff.eof = false)
    (hawait : beh.await_exit = none)
    (hquit : beh.quit_poll_exit = some code)
    (hlog : beh.log = some output) :
    TestCaseRunner.run_test_case executable cfg test_case expected_text input_lines evs beh dbeh
      = ⟨.ok (outcome_of executable test_case
          (TestCaseRunner.check' ⟨test_case.exit_code, expected_text⟩ ⟨code, some output⟩)),
          n, false⟩ := by
  simp [TestCaseRunner.run_test_case, hscreen, run_screen, hfeed, heof, hawait, hquit, hlog]

/-- Witness for C7 (amended): no exit code within the timeout, but the
teardown poll reaps exit code 0 and the log matches; the case completes with
`"ok"`. -/
theorem c7_amended_witness :
    TestCaseRunner.run_test_case "exe"
      ⟨"always", ⟨"auto", false⟩, ⟨"valgrind", [], "auto", "normal"⟩⟩
      ⟨none, some "e.txt", none, [], 0⟩ (some "hello") [] (fun _ => FeedEvent.stuffed 0)
      ⟨false, none, some 0, some "hello"⟩ ⟨0, "", 0⟩
      = ⟨.ok (outcome_of "exe" ⟨none, some "e.txt", none, [], 0⟩
          (TestCaseRunner.check' ⟨0, some "hello"⟩ ⟨0, some "hello"⟩)), 0, false⟩ :=
  c7_amended "exe" ⟨"always", ⟨"auto", false⟩, ⟨"valgrind", [], "auto", "normal"⟩⟩
    ⟨none, some "e.txt", none, [], 0⟩ (some "hello") [] (fun _ => FeedEvent.stuffed 0)
    ⟨false, none, some 0, some "hello"⟩ ⟨0, "", 0⟩ 0 0 "hello" rfl rfl rfl rfl rfl rfl

/-- Counterexample to claim C8: with `require_screen = "always"`, a fixture
with no input file runs in the terminal-session path; the memory-check policy
(`auto`) deems it applicable and the primary run exits with the expected code,
yet the subject is never re-invoked under the checker (`valgrind_invoked =
false`) and the would-be nonzero checker exit (2) does not fail the case. -/
theorem c8_counterexample :
    TestCaseRunner.run_test_case "exe"
      ⟨"always", ⟨"auto", false⟩, ⟨"valgrind", [], "auto", "normal"⟩⟩
      ⟨none, some "expected.txt", none, [], 0⟩ (some "hello") []
      (fun _ => FeedEvent.stuffed 0) ⟨false, some 0, none, some "hello"⟩ ⟨0, "hello", 2⟩
      = ⟨.ok ⟨true, "exe", ⟨none, some "expected.txt", none, [], 0⟩,
          some "hello", some "hello", "ok"⟩, 0, false⟩ ∧
    (⟨"valgrind", [], "auto", "normal"⟩ : ValgrindConfig).is_applicable
      ⟨none, some "expected.txt", none, [], 0⟩ = .ok true ∧
    TestCase.check_exit_code ⟨none, some "expected.txt", none, [], 0⟩ 0 = true ∧
    ((⟨0, "hello", 2⟩ : DirectBehavior).valgrind_exit != 0) = true :=
  ⟨rfl, rfl, rfl, rfl⟩

/-- Claim C8 as amended: the memory checker is re-invoked only in the
direct-invocation (no-terminal-session) path. There, when the primary exit
code matches and the policy deems the fixture applicable, a nonzero checker
exit fails the case with classification `"memcheck"` regardless of the
primary run's output; under the `auto` policy a fixture is applicable exactly
when it has no input file; and in the terminal-session path the checker is
never invoked. -/
theorem c8_amended :
    (∀ (executable : String) (cfg : RunnerConfig) (test_case : TestCase)
        (expected_text : Option String) (input_lines : List String)
        (evs : Nat → FeedEvent) (beh : ScreenBehavior) (dbeh : DirectBehavior),
      is_use_screen cfg.require_screen test_case = false →
      TestCase.check_exit_code test_case dbeh.exit_code = true →
      cfg.valgrind.is_applicable test_case = .ok true →
      dbeh.valgrind_exit ≠ 0 →
      TestCaseRunner.run_test_case executable cfg test_case expected_text input_lines evs beh
          dbeh
        = ⟨.ok (make_outcome executable test_case false expected_text (some dbeh.stdout)
            "memcheck"), 0, true⟩) ∧
    (∀ (vcfg : ValgrindConfig) (test_case : TestCase), vcfg.applicability = "auto" →
      (vcfg.is_applicable test_case = .ok true ↔ test_case.input_file = none)) ∧
    (∀ (executable : String) (cfg : RunnerConfig) (test_case : TestCase)
        (expected_text : Option String) (input_lines : List String)
        (evs : Nat → FeedEvent) (beh : ScreenBehavior) (dbeh : DirectBehavior),
      is_use_screen cfg.require_screen test_case = true →
      (TestCaseRunner.run_test_case executable cfg test_case expected_text input_lines evs beh
          dbeh).valgrind_invoked = false) := by
  refine ⟨?_, ?_, ?_⟩
  · intro executable cfg test_case expected_text input_lines evs beh dbeh hscreen hexit happl
      hvg
    simp [TestCaseRunner.run_test_case, hscreen, run_direct, hexit, happl, bne_iff_ne, hvg]
  · intro vcfg test_case happl
    simp [ValgrindConfig.is_applicable, happl, Option.isNone_iff_eq_none]
  · intro executable cfg test_case expected_text input_lines evs beh dbeh hscreen
    simp [TestCaseRunner.run_test_case, hscreen]

/-- Witness for C8 (amended): a no-input fixture run directly, exiting with
the expected code 0; the `auto` policy applies, valgrind exits 2, and the case
fails with classification `"memcheck"`. -/
theorem c8_amended_witness :
    is_use_screen "auto" ⟨none, some "e.txt", none, [], 0⟩ = false ∧
    TestCaseRunner.run_test_case "exe"
      ⟨"auto", ⟨"auto", false⟩, ⟨"valgrind", [], "auto", "normal"⟩⟩
      ⟨none, some "e.txt", none, [], 0⟩ (some "x") [] (fun _ => FeedEvent.stuffed 0)
      ⟨false, none, none, none⟩ ⟨0, "out", 2⟩
      = ⟨.ok (make_outcome "exe" ⟨none, some "e.txt", none, [], 0⟩ false (some "x")
          (some "out") "memcheck"), 0, true⟩ :=
  ⟨rfl, c8_amended.1 "exe" ⟨"auto", ⟨"auto", false⟩, ⟨"valgrind", [], "auto", "normal"⟩⟩
    ⟨none, some "e.txt", none, [], 0⟩ (some "x") [] (fun _ => FeedEvent.stuffed 0)
    ⟨false, none, none, none⟩ ⟨0, "out", 2⟩ rfl rfl rfl (by decide)⟩

end Hwsuite
